import Mathlib

/-!
Verification of the logo-app core: the daily usage-quota tracker, the
error-message classification of the two generation wrappers, and the
serverless image proxy handler.  Each definition is a shallow embedding of
the corresponding TypeScript in the repository; dates, storage and HTTP
requests are passed explicitly where the source reads the clock,
localStorage or the event object.
-/

/-- The single persisted storage slot (localStorage key "logoConceptUsage").
`absent` is a missing entry, `malformed` is a stored string on which
JSON.parse throws, and `record` is a parsed `{ date, count }` object. -/
inductive Stored where
  | absent : Stored
  | malformed : Stored
  | record (date : String) (count : Int) : Stored
deriving DecidableEq, Repr

/-- The React state of the App component that the quota logic touches:
the storage slot, the `usageCount` state variable, the `error` state and
the `generatedConcept` state.  (Rendering-only state such as `isLoading`
is omitted.) -/
structure AppState where
  stored : Stored
  usageCount : Int
  errorMsg : Option String
  generatedConcept : Option String
deriving DecidableEq, Repr

/-- `DAILY_LIMIT` from the App component. -/
def DAILY_LIMIT : Int := 5

/-- `checkAndRecordUsage` from the App component.  `today` is the value of
`new Date().toISOString().split('T')[0]` at call time.  Reads the slot: a
parse failure or a missing entry gives `currentCount = 0`, a record whose
date is not `today` also gives 0.  At or above `DAILY_LIMIT` it sets the
error message and returns `false` without touching the slot or the
counter; otherwise it increments, writes back `{ date: today, count }`,
and returns `true`. -/
def checkAndRecordUsage (today : String) (s : AppState) : Bool × AppState :=
  let currentCount : Int :=
    match s.stored with
    | Stored.absent => 0
    | Stored.malformed => 0
    | Stored.record date count => if date = today then count else 0
  if DAILY_LIMIT ≤ currentCount then
    (false, { s with errorMsg := some "You have reached your daily limit of 5 logo concepts." })
  else
    let newCount := currentCount + 1
    (true, { s with usageCount := newCount, stored := Stored.record today newCount })

/-- The initial-render `useEffect` of the App component: reads the slot,
restores `usageCount` when the record is for today, removes the entry when
it is stale or unparseable, and leaves the in-memory count at its initial
value 0 otherwise.  Returns the slot after the effect and the resulting
`usageCount`. -/
def loadUsage (today : String) (st : Stored) : Stored × Int :=
  match st with
  | Stored.absent => (Stored.absent, 0)
  | Stored.malformed => (Stored.absent, 0)
  | Stored.record d c => if d = today then (Stored.record d c, c) else (Stored.absent, 0)

/-- Outcome of the awaited `generateLogoConcept` call as seen by
`handleGenerateConcept`: a concept text, or a thrown error message. -/
inductive ConceptOutcome where
  | ok (text : String) : ConceptOutcome
  | err (msg : String) : ConceptOutcome
deriving DecidableEq, Repr

/-- `handleGenerateConcept` from the App component, with the awaited call
replaced by its `outcome`.  The rollback in the catch branch reads the
`usageCount` captured by the `useCallback` closure, i.e. the value of
`s.usageCount` when the handler started — `setUsageCount` inside
`checkAndRecordUsage` does not change that captured constant — and writes
back `captured - 1`.  `isLoading` is omitted. -/
def handleGenerateConcept (today : String) (apiKey : String)
    (outcome : ConceptOutcome) (s : AppState) : AppState :=
  if apiKey = "" then
    { s with errorMsg := some "API Key is missing. Please refresh and enter your API key." }
  else
    let captured := s.usageCount
    let res := checkAndRecordUsage today s
    if res.1 then
      let s2 := { res.2 with errorMsg := none, generatedConcept := none }
      match outcome with
      | ConceptOutcome.ok text => { s2 with generatedConcept := some text }
      | ConceptOutcome.err msg =>
          { s2 with errorMsg := some msg,
                    usageCount := captured - 1,
                    stored := Stored.record today (captured - 1) }
    else
      res.2

/-- A fresh App state: no stored record, counter 0, no error, no concept. -/
def freshState : AppState :=
  { stored := Stored.absent, usageCount := 0, errorMsg := none, generatedConcept := none }

/-- `n` successive calls to `checkAndRecordUsage` on the same day: the
list of returned booleans and the final state. -/
def reserveIter (today : String) : Nat → AppState → List Bool × AppState
  | 0, s => ([], s)
  | n + 1, s =>
      let r := checkAndRecordUsage today s
      let rest := reserveIter today n r.2
      (r.1 :: rest.1, rest.2)

/-- C1: from a fresh tracker with DAILY_LIMIT = 5, the first 5 calls to
`checkAndRecordUsage` on the same day return `true` with the stored count
running 1..5, the 6th returns `false`, the count recorded for today is
still 5 after the 6th call, and a rejected reservation never mutates the
slot or the counter. -/
theorem quota_first_five_then_reject (today : String) :
    (reserveIter today 6 freshState).1 = [true, true, true, true, true, false]
    ∧ (reserveIter today 6 freshState).2.stored = Stored.record today 5
    ∧ (reserveIter today 6 freshState).2.usageCount = 5
    ∧ (∀ k : Nat, 1 ≤ k → k ≤ 5 →
        (reserveIter today k freshState).2.stored = Stored.record today k
        ∧ (reserveIter today k freshState).1 = List.replicate k true)
    ∧ (∀ s : AppState, (checkAndRecordUsage today s).1 = false →
        (checkAndRecordUsage today s).2.stored = s.stored
        ∧ (checkAndRecordUsage today s).2.usageCount = s.usageCount) := by
  refine ⟨?_, ?_, ?_, ?_, ?_⟩
  · simp [reserveIter, checkAndRecordUsage, freshState, DAILY_LIMIT]
  · simp [reserveIter, checkAndRecordUsage, freshState, DAILY_LIMIT]
  · simp [reserveIter, checkAndRecordUsage, freshState, DAILY_LIMIT]
  · intro k h1 h5
    interval_cases k <;>
      simp [reserveIter, checkAndRecordUsage, freshState, DAILY_LIMIT, List.replicate]
  · intro s h
    simp only [checkAndRecordUsage] at h ⊢
    split at h
    · rename_i hc
      simp [hc]
    · simp at h

/-- C1 witness: the theorem applied on a concrete day, with the inner
hypotheses discharged at k = 3 and at a concrete saturated state. -/
theorem quota_first_five_then_reject_witness :
    (reserveIter "2024-06-01" 6 freshState).1 = [true, true, true, true, true, false]
    ∧ (reserveIter "2024-06-01" 3 freshState).2.stored = Stored.record "2024-06-01" 3
    ∧ (checkAndRecordUsage "2024-06-01"
        { stored := Stored.record "2024-06-01" 5, usageCount := 5,
          errorMsg := none, generatedConcept := none }).2.stored
        = Stored.record "2024-06-01" 5 := by
  have h := quota_first_five_then_reject "2024-06-01"
  refine ⟨h.1, (h.2.2.2.1 3 (by decide) (by decide)).1, ?_⟩
  exact (h.2.2.2.2 _ (by decide)).1

/-- C2: evaluation of the failure branch of `handleGenerateConcept` at a
concrete state whose stored record and in-memory `usageCount` agree on
count 1.  The rollback writes back `captured - 1 = 0`, not the
pre-reservation value 1: the `useCallback` closure still holds the
pre-increment `usageCount`, so reserve-then-rollback is not a no-op on
the persisted counter. -/
theorem rollback_leaves_count_below_start :
    (handleGenerateConcept "2024-06-01" "key"
        (ConceptOutcome.err "Failed to generate concept: boom")
        { stored := Stored.record "2024-06-01" 1, usageCount := 1,
          errorMsg := none, generatedConcept := none }).stored
      = Stored.record "2024-06-01" 0
    ∧ Stored.record "2024-06-01" 0 ≠ Stored.record "2024-06-01" 1 := by
  decide

/-- C3: evaluation of one failed generation attempt from a fresh state.
The rollback writes `captured - 1 = -1` into storage — a persisted count
below 0, outside the range [0, DAILY_LIMIT]; the code applies no floor
at 0. -/
theorem rollback_writes_negative_count :
    (handleGenerateConcept "2024-06-01" "key" (ConceptOutcome.err "boom")
        freshState).stored = Stored.record "2024-06-01" (-1)
    ∧ (handleGenerateConcept "2024-06-01" "key" (ConceptOutcome.err "boom")
        freshState).usageCount = -1 := by
  decide

/-- C4: every stored record whose date is not today is treated as
count 0: a reservation succeeds and writes back a record with today's
date and count 1, regardless of the stale count `c` and of the rest of
the state. -/
theorem stale_record_reset (today yesterday : String) (c u : Int)
    (e g : Option String) (h : yesterday ≠ today) :
    checkAndRecordUsage today
        { stored := Stored.record yesterday c, usageCount := u,
          errorMsg := e, generatedConcept := g }
      = (true, { stored := Stored.record today 1, usageCount := 1,
                 errorMsg := e, generatedConcept := g }) := by
  norm_num [checkAndRecordUsage, h, DAILY_LIMIT]

/-- C4 witness: the theorem applied to a record dated yesterday with
count 5. -/
theorem stale_record_reset_witness :
    checkAndRecordUsage "2024-06-02"
        { stored := Stored.record "2024-06-01" 5, usageCount := 5,
          errorMsg := none, generatedConcept := none }
      = (true, { stored := Stored.record "2024-06-02" 1, usageCount := 1,
                 errorMsg := none, generatedConcept := none }) :=
  stale_record_reset "2024-06-02" "2024-06-01" 5 5 none none (by decide)

/-- C6: a malformed (unparseable) storage slot is treated as absent: a
reservation proceeds exactly as on a fresh day, overwriting the slot with
`{ date: today, count: 1 }`, and the startup load reads the count as 0
(removing the bad entry); both operations are total, so no parse failure
reaches the caller. -/
theorem malformed_storage_treated_as_absent (today : String) (u : Int)
    (e g : Option String) :
    checkAndRecordUsage today
        { stored := Stored.malformed, usageCount := u,
          errorMsg := e, generatedConcept := g }
      = (true, { stored := Stored.record today 1, usageCount := 1,
                 errorMsg := e, generatedConcept := g })
    ∧ loadUsage today Stored.malformed = (Stored.absent, 0) := by
  constructor
  · norm_num [checkAndRecordUsage, DAILY_LIMIT]
  · rfl

/-- `charsStartWith s pat` is true when `pat` is an initial segment of
`s` (character lists). -/
def charsStartWith : List Char → List Char → Bool
  | _, [] => true
  | [], _ :: _ => false
  | a :: as, b :: bs => a == b && charsStartWith as bs

/-- `charsContain s pat` is true when `pat` occurs contiguously inside
`s`, matching the semantics of JavaScript `String.prototype.includes`. -/
def charsContain (s pat : List Char) : Bool :=
  match s with
  | [] => pat.isEmpty
  | _ :: rest => charsStartWith s pat || charsContain rest pat

/-- `m.includes(pat)` of the source, on Lean strings. -/
def strIncludes (s pat : String) : Bool :=
  charsContain s.toList pat.toList

/-- `m.toLowerCase()` of the source (ASCII case folding, as all matched
patterns are ASCII). -/
def strToLower (s : String) : String :=
  String.mk (s.toList.map Char.toLower)

/-- The branch taken by an error-mapping catch block, one constructor per
user-facing category named in the spec. -/
inductive ErrCategory where
  | invalidCredential : ErrCategory
  | billingRequired : ErrCategory
  | permissionDenied : ErrCategory
  | quotaExceeded : ErrCategory
  | unknown : ErrCategory
deriving DecidableEq, Repr

/-- The message thrown by the catch block of `generateLogoConcept`
(services/geminiService.ts) for a raw provider message `m`: a credential
check, then a case-insensitive quota check, then the generic fallback
that appends `m` — there is no billing or permission branch on this
path. -/
def conceptErrorMessage (m : String) : String :=
  if strIncludes m "API key not valid" then
    "The API key is not valid. Please check your key and its permissions."
  else if strIncludes (strToLower m) "quota" then
    "You have exceeded your API quota. Please check your usage limits in Google Cloud."
  else
    "Failed to generate concept: " ++ m

/-- Which branch of the `generateLogoConcept` catch block fires for a raw
message `m` (same conditions, in the same order, as
`conceptErrorMessage`). -/
def classifyConceptError (m : String) : ErrCategory :=
  if strIncludes m "API key not valid" then ErrCategory.invalidCredential
  else if strIncludes (strToLower m) "quota" then ErrCategory.quotaExceeded
  else ErrCategory.unknown

/-- The message thrown by the catch block of `generateLogoImage` for a
raw provider message `m`: credential, then billing, then permission,
then quota, then the generic fallback that appends `m`. -/
def imageErrorMessage (m : String) : String :=
  if strIncludes m "API key not valid" then
    "The API key is not valid. Please check your key in the Google Cloud project."
  else if strIncludes (strToLower m) "billing" then
    "Billing is not enabled for the project. The Imagen API requires a billed account. Please enable billing in your Google Cloud account."
  else if strIncludes (strToLower m) "permission denied" || strIncludes (strToLower m) "api not enabled" then
    "API permission denied. Ensure the \"Generative Language API\" or \"Vertex AI API\" is enabled in your Google Cloud project."
  else if strIncludes (strToLower m) "quota" then
    "You have exceeded your API quota. Please check your usage limits in Google Cloud."
  else
    "Failed to generate logo: " ++ m

/-- Which branch of the `generateLogoImage` catch block fires for a raw
message `m` (same conditions, in the same order, as
`imageErrorMessage`). -/
def classifyImageError (m : String) : ErrCategory :=
  if strIncludes m "API key not valid" then ErrCategory.invalidCredential
  else if strIncludes (strToLower m) "billing" then ErrCategory.billingRequired
  else if strIncludes (strToLower m) "permission denied" || strIncludes (strToLower m) "api not enabled" then ErrCategory.permissionDenied
  else if strIncludes (strToLower m) "quota" then ErrCategory.quotaExceeded
  else ErrCategory.unknown

/-- C5 counterexample: the raw message "Billing account not enabled"
contains "billing" case-insensitively and does not match the credential
rule, yet on the concept-text path (`generateLogoConcept`) it falls
through to the generic branch: that path has no billing rule, so the
claim fails for the concept path. -/
theorem billing_unclassified_on_concept_path :
    classifyConceptError "Billing account not enabled" = ErrCategory.unknown
    ∧ classifyConceptError "Billing account not enabled" ≠ ErrCategory.billingRequired
    ∧ conceptErrorMessage "Billing account not enabled"
        = "Failed to generate concept: Billing account not enabled" := by
  decide

/-- C5 amended: every raw message containing "billing" case-insensitively
that does not match the earlier credential rule is classified as
BillingRequired on the image path (`generateLogoImage`); the concept path
classifies the example message as Unknown. -/
theorem billing_classified_on_image_path (m : String)
    (hb : strIncludes (strToLower m) "billing" = true)
    (hc : strIncludes m "API key not valid" = false) :
    classifyImageError m = ErrCategory.billingRequired
    ∧ imageErrorMessage m
        = "Billing is not enabled for the project. The Imagen API requires a billed account. Please enable billing in your Google Cloud account." := by
  simp [classifyImageError, imageErrorMessage, hb, hc]

/-- C5 witness: the amended theorem applied to the example message. -/
theorem billing_classified_on_image_path_witness :
    classifyImageError "Billing account not enabled" = ErrCategory.billingRequired :=
  (billing_classified_on_image_path "Billing account not enabled"
    (by decide) (by decide)).1

/-- C7 counterexample: for the unmatched raw message "something weird",
the caller-visible message is the generic fallback with a fixed prefix,
not the raw message itself, on both generation paths. -/
theorem unknown_message_not_verbatim :
    conceptErrorMessage "something weird"
        = "Failed to generate concept: something weird"
    ∧ conceptErrorMessage "something weird" ≠ "something weird"
    ∧ imageErrorMessage "something weird"
        = "Failed to generate logo: something weird"
    ∧ imageErrorMessage "something weird" ≠ "something weird" := by
  decide

/-- C7 amended: every raw message matching none of the classification
patterns (credential, billing, permission, quota) is classified Unknown
on both paths, and the raw message is preserved verbatim as the suffix of
the caller-visible message after a fixed prefix ("Failed to generate
concept: " or "Failed to generate logo: "). -/
theorem unknown_preserves_raw_message (m : String)
    (h1 : strIncludes m "API key not valid" = false)
    (h2 : strIncludes (strToLower m) "billing" = false)
    (h3 : strIncludes (strToLower m) "permission denied" = false)
    (h4 : strIncludes (strToLower m) "api not enabled" = false)
    (h5 : strIncludes (strToLower m) "quota" = false) :
    classifyConceptError m = ErrCategory.unknown
    ∧ conceptErrorMessage m = "Failed to generate concept: " ++ m
    ∧ classifyImageError m = ErrCategory.unknown
    ∧ imageErrorMessage m = "Failed to generate logo: " ++ m := by
  simp [classifyConceptError, conceptErrorMessage, classifyImageError,
        imageErrorMessage, h1, h2, h3, h4, h5]

/-- C7 witness: the amended theorem applied to "something weird". -/
theorem unknown_preserves_raw_message_witness :
    classifyConceptError "something weird" = ErrCategory.unknown
    ∧ conceptErrorMessage "something weird"
        = "Failed to generate concept: " ++ "something weird" :=
  let h := unknown_preserves_raw_message "something weird"
    (by decide) (by decide) (by decide) (by decide) (by decide)
  ⟨h.1, h.2.1⟩

/-- The body of an incoming request to the serverless function, as seen
through `JSON.parse(event.body || '{}')`: `noBody` is a null/undefined
`event.body`, `emptyBody` the empty string (both falsy, so both parse
"\x7b\x7d"), `invalidJson` a present body on which JSON.parse throws with
message `parseMsg`, and `jsonObj` a parsed object whose `prompt` field is
absent (`none`) or a string. -/
inductive ReqBody where
  | noBody : ReqBody
  | emptyBody : ReqBody
  | invalidJson (parseMsg : String) : ReqBody
  | jsonObj (prompt : Option String) : ReqBody
deriving DecidableEq, Repr

/-- Outcome of the awaited `ai.models.generateImages` call inside the
handler: image bytes, an empty/blocked response (no generated image),
or a thrown error with message `msg`. -/
inductive GenOutcome where
  | imageOk (bytes : String) : GenOutcome
  | noImage : GenOutcome
  | genFail (msg : String) : GenOutcome
deriving DecidableEq, Repr

/-- The JSON payload of a handler response: an error object or the
base64 image object. -/
inductive RespBody where
  | errMsg (msg : String) : RespBody
  | imageB64 (bytes : String) : RespBody
deriving DecidableEq, Repr

/-- A handler response: status code and JSON payload (the constant
Content-Type header is omitted). -/
structure HttpResponse where
  statusCode : Nat
  body : RespBody
deriving DecidableEq, Repr

/-- JavaScript truthiness of the destructured `prompt` field: falsy when
the field is absent or the empty string. -/
def promptFalsy : Option String → Bool
  | none => true
  | some s => s = ""

/-- The Netlify `handler`: rejects non-POST methods with 405, then a
missing server credential with 500, then parses the body — a JSON parse
failure lands in the catch block (500).  A parsed body with a falsy
`prompt` gives 400; otherwise the image call runs and its outcome maps to
200 with the bytes, or to the catch block (500) for an empty response or
a thrown error. -/
def handler (apiKey : Option String) (httpMethod : String)
    (body : ReqBody) (gen : GenOutcome) : HttpResponse :=
  if httpMethod ≠ "POST" then
    { statusCode := 405, body := RespBody.errMsg "Method Not Allowed" }
  else if apiKey.isNone then
    { statusCode := 500, body := RespBody.errMsg "API key is not configured on the server." }
  else
    match body with
    | ReqBody.invalidJson parseMsg =>
        { statusCode := 500, body := RespBody.errMsg ("Failed to generate logo. " ++ parseMsg) }
    | ReqBody.noBody =>
        { statusCode := 400, body := RespBody.errMsg "Prompt is required." }
    | ReqBody.emptyBody =>
        { statusCode := 400, body := RespBody.errMsg "Prompt is required." }
    | ReqBody.jsonObj p =>
        if promptFalsy p then
          { statusCode := 400, body := RespBody.errMsg "Prompt is required." }
        else
          match gen with
          | GenOutcome.imageOk bytes =>
              { statusCode := 200, body := RespBody.imageB64 bytes }
          | GenOutcome.noImage =>
              { statusCode := 500,
                body := RespBody.errMsg "Failed to generate logo. No image was generated. The API response may have been empty or blocked." }
          | GenOutcome.genFail msg =>
              { statusCode := 500, body := RespBody.errMsg ("Failed to generate logo. " ++ msg) }

/-- C8: the HTTP contract of the serverless handler: non-POST gives 405;
a POST whose parsed JSON body lacks a (truthy) prompt gives 400; a
missing server credential, a thrown image-call error, or an empty
image response gives 500; and a successful generation gives 200 carrying
the image bytes. -/
theorem handler_http_contract :
    (∀ (k : Option String) (b : ReqBody) (g : GenOutcome) (m : String),
        m ≠ "POST" → (handler k m b g).statusCode = 405)
    ∧ (∀ (k : String) (g : GenOutcome) (p : Option String),
        promptFalsy p = true →
        (handler (some k) "POST" (ReqBody.jsonObj p) g).statusCode = 400)
    ∧ (∀ (b : ReqBody) (g : GenOutcome),
        (handler none "POST" b g).statusCode = 500)
    ∧ (∀ (k p msg : String), p ≠ "" →
        (handler (some k) "POST" (ReqBody.jsonObj (some p)) (GenOutcome.genFail msg)).statusCode = 500
        ∧ (handler (some k) "POST" (ReqBody.jsonObj (some p)) GenOutcome.noImage).statusCode = 500)
    ∧ (∀ (k p bytes : String), p ≠ "" →
        handler (some k) "POST" (ReqBody.jsonObj (some p)) (GenOutcome.imageOk bytes)
          = { statusCode := 200, body := RespBody.imageB64 bytes }) := by
  refine ⟨?_, ?_, ?_, ?_, ?_⟩
  · intro k b g m hm
    simp [handler, hm]
  · intro k g p hp
    simp [handler, hp]
  · intro b g
    cases b <;> simp [handler, promptFalsy]
  · intro k p msg hp
    simp [handler, promptFalsy, hp]
  · intro k p bytes hp
    simp [handler, promptFalsy, hp]

/-- C8 witness: each part of the contract applied at concrete requests. -/
theorem handler_http_contract_witness :
    (handler (some "k") "GET" ReqBody.noBody GenOutcome.noImage).statusCode = 405
    ∧ (handler (some "k") "POST" (ReqBody.jsonObj none) GenOutcome.noImage).statusCode = 400
    ∧ (handler none "POST" (ReqBody.jsonObj (some "a cat")) GenOutcome.noImage).statusCode = 500
    ∧ (handler (some "k") "POST" (ReqBody.jsonObj (some "a cat")) (GenOutcome.genFail "boom")).statusCode = 500
    ∧ handler (some "k") "POST" (ReqBody.jsonObj (some "a cat")) (GenOutcome.imageOk "bytes")
        = { statusCode := 200, body := RespBody.imageB64 "bytes" } := by
  have h := handler_http_contract
  exact ⟨h.1 (some "k") ReqBody.noBody GenOutcome.noImage "GET" (by decide),
         h.2.1 "k" GenOutcome.noImage none (by decide),
         h.2.2.1 (ReqBody.jsonObj (some "a cat")) GenOutcome.noImage,
         (h.2.2.2.1 "k" "a cat" "boom" (by decide)).1,
         h.2.2.2.2 "k" "a cat" "bytes" (by decide)⟩

/-- C9: the method check precedes the credential check: every non-POST
request is answered 405 even when the API_KEY environment variable is
unset, and never sees the 500 configuration response. -/
theorem non_post_rejected_before_key_check (b : ReqBody) (g : GenOutcome)
    (m : String) (h : m ≠ "POST") :
    handler none m b g
      = { statusCode := 405, body := RespBody.errMsg "Method Not Allowed" } := by
  simp [handler, h]

/-- C9 witness: the theorem applied to a GET request with no server key. -/
theorem non_post_rejected_before_key_check_witness :
    handler none "GET" ReqBody.noBody GenOutcome.noImage
      = { statusCode := 405, body := RespBody.errMsg "Method Not Allowed" } :=
  non_post_rejected_before_key_check ReqBody.noBody GenOutcome.noImage "GET"
    (by decide)

/-- C10: on a configured server, a POST with an absent or empty body is
parsed as an empty JSON object and answered 400 "Prompt is required.",
while a POST whose body is present but not valid JSON lands in the catch
block and is answered 500, not 400. -/
theorem absent_body_400_invalid_json_500 (k : String) (g : GenOutcome)
    (parseMsg : String) :
    handler (some k) "POST" ReqBody.noBody g
      = { statusCode := 400, body := RespBody.errMsg "Prompt is required." }
    ∧ handler (some k) "POST" ReqBody.emptyBody g
      = { statusCode := 400, body := RespBody.errMsg "Prompt is required." }
    ∧ (handler (some k) "POST" (ReqBody.invalidJson parseMsg) g).statusCode = 500
    ∧ (handler (some k) "POST" (ReqBody.invalidJson parseMsg) g).statusCode ≠ 400 := by
  refine ⟨?_, ?_, ?_, ?_⟩ <;> simp [handler]
